import Mathlib

/-!
Verification development for a recipe-book application (Python, PySide6,
MVC).  The code is embedded shallowly:

* `RecipeDatabase` (src/model/database.py) — the SQLite table `recipes`
  becomes a list of rows in storage (rowid) order together with the
  AUTOINCREMENT counter `next_id`; ids start at 1 and are never reused.
  Each SQL statement becomes a pure state transformer.
* `RecipeModel` / `Recipe` (src/model/recipe_model.py) — thin wrappers
  translating raw rows to `Recipe` records.
* `ViewState` (src/view/main_window.py) — the form fields, the selected
  image path, the current recipe id and the mode string; widget styling,
  pixmaps and button enablement are display-only and are not modelled.
* `RecipeController` (src/controller/recipe_controller.py) — handlers
  become functions `ViewState × RecipeDatabase → ViewState × RecipeDatabase`.

Python string `strip()` is embedded as `pyStrip` (drop leading and
trailing whitespace characters); Python truthiness of an optional int
(`if recipe_id:`) and of an optional string (`if recipe.image_path:`) is
embedded by `optNatTruthy` / `optStrTruthy`.
-/

/-- One raw row of table `recipes(id, title, ingredients, instructions,
image_path)` as returned by fetchall in src/model/database.py. -/
structure Row where
  id : Nat
  title : String
  ingredients : String
  instructions : String
  image_path : Option String
deriving DecidableEq, Repr

/-- State of the SQLite store of src/model/database.py: the rows in rowid
order plus the AUTOINCREMENT counter (sqlite_sequence), which starts at 1
and never hands out the same id twice within a database lifetime. -/
structure RecipeDatabase where
  rows : List Row
  next_id : Nat
deriving DecidableEq, Repr

namespace RecipeDatabase

/-- A freshly created database file: `create_table` on an empty store;
no rows, first id to be assigned is 1. -/
def empty : RecipeDatabase := { rows := [], next_id := 1 }

/-- RecipeDatabase.insert_recipe (database.py lines 59-65): INSERT a new
row; the id column is assigned by AUTOINCREMENT.  The second component of
the result is the Python return value of the method, which has no return
statement and therefore returns None — embedded as `none`. -/
def insert_recipe (db : RecipeDatabase) (title ingredients instructions : String)
    (image_path : Option String) : RecipeDatabase × Option Nat :=
  ({ rows := db.rows ++ [⟨db.next_id, title, ingredients, instructions, image_path⟩],
     next_id := db.next_id + 1 }, none)

/-- RecipeDatabase.get_all_recipes (database.py lines 70-77): SELECT * —
all rows in storage order. -/
def get_all_recipes (db : RecipeDatabase) : List Row := db.rows

/-- RecipeDatabase.update_recipe (database.py lines 82-89): UPDATE all
four non-id columns of each row WHERE id matches; rows with another id
are untouched.  Matching nothing updates nothing and raises no error. -/
def update_recipe (db : RecipeDatabase) (recipe_id : Nat)
    (title ingredients instructions : String) (image_path : Option String) :
    RecipeDatabase :=
  { db with rows := db.rows.map (fun r =>
      if r.id = recipe_id then
        { id := r.id, title := title, ingredients := ingredients,
          instructions := instructions, image_path := image_path }
      else r) }

/-- RecipeDatabase.delete_recipe (database.py lines 94-97): DELETE the
rows WHERE id matches; absent id deletes nothing and raises no error. -/
def delete_recipe (db : RecipeDatabase) (recipe_id : Nat) : RecipeDatabase :=
  { db with rows := db.rows.filter (fun r => r.id ≠ recipe_id) }

end RecipeDatabase

/-- The Recipe data-transfer object of src/model/recipe_model.py. -/
structure Recipe where
  id : Nat
  title : String
  ingredients : String
  instructions : String
  image_path : Option String
deriving DecidableEq, Repr

/-- Recipe(*row): positional unpacking of a raw row into a Recipe. -/
def rowToRecipe (r : Row) : Recipe :=
  ⟨r.id, r.title, r.ingredients, r.instructions, r.image_path⟩

namespace RecipeModel

/-- RecipeModel.add_recipe (recipe_model.py lines 42-44): delegates to the
store insert unchanged; the method itself returns None, so only the new
store state is kept. -/
def add_recipe (db : RecipeDatabase) (title ingredients instructions : String)
    (image_path : Option String) : RecipeDatabase :=
  (db.insert_recipe title ingredients instructions image_path).1

/-- RecipeModel.get_all_recipes (recipe_model.py lines 49-56): fetch the
raw rows and convert each to a Recipe, preserving order. -/
def get_all_recipes (db : RecipeDatabase) : List Recipe :=
  db.get_all_recipes.map rowToRecipe

/-- RecipeModel.get_recipe_by_id (recipe_model.py lines 58-68): linear
scan over get_all_recipes, returning the first Recipe whose id matches,
else None. -/
def get_recipe_by_id (db : RecipeDatabase) (recipe_id : Nat) : Option Recipe :=
  (get_all_recipes db).find? (fun r => r.id = recipe_id)

/-- RecipeModel.update_recipe (recipe_model.py lines 73-85): write all
fields of the given Recipe back to the store keyed by its id. -/
def update_recipe (db : RecipeDatabase) (recipe : Recipe) : RecipeDatabase :=
  db.update_recipe recipe.id recipe.title recipe.ingredients
    recipe.instructions recipe.image_path

/-- RecipeModel.delete_recipe (recipe_model.py lines 90-92). -/
def delete_recipe (db : RecipeDatabase) (recipe_id : Nat) : RecipeDatabase :=
  db.delete_recipe recipe_id

end RecipeModel

/-- Python str.strip() on a list of characters: drop leading and trailing
whitespace. -/
def charStrip (l : List Char) : List Char :=
  ((l.dropWhile Char.isWhitespace).reverse.dropWhile Char.isWhitespace).reverse

/-- Python str.strip(): remove leading and trailing whitespace. -/
def pyStrip (s : String) : String := String.mk (charStrip s.data)

/-- Python truthiness of an optional integer: None and 0 are falsy. -/
def optNatTruthy : Option Nat → Bool
  | none => false
  | some n => n ≠ 0

/-- Python truthiness of an optional string: None and the empty string
are falsy. -/
def optStrTruthy : Option String → Bool
  | none => false
  | some s => s ≠ ""

/-- The View state of src/view/main_window.py that the controller reads
and writes: form fields, selected image path, current recipe id, the mode
string ("add", "edit" or "view") and the recipe list entries
(title shown, id stored in the item data role). -/
structure ViewState where
  title_input : String
  ingredients_input : String
  instructions_input : String
  selected_image_path : Option String
  current_recipe_id : Option Nat
  mode : String
  recipe_list : List (String × Nat)
deriving DecidableEq, Repr

namespace ViewState

/-- RecipeMainWindow.set_mode (main_window.py lines 109-129): records the
mode; the rest of the method only enables/disables buttons. -/
def set_mode (v : ViewState) (m : String) : ViewState := { v with mode := m }

/-- RecipeMainWindow.get_input_data (main_window.py lines 134-141). -/
def get_input_data (v : ViewState) :
    String × String × String × Option String :=
  (v.title_input, v.ingredients_input, v.instructions_input,
   v.selected_image_path)

/-- RecipeMainWindow.clear_inputs (main_window.py lines 143-151): blanks
the three text fields, forgets image path and current recipe id, and ends
by calling set_mode("add"). -/
def clear_inputs (v : ViewState) : ViewState :=
  ({ v with title_input := "", ingredients_input := "",
            instructions_input := "", selected_image_path := none,
            current_recipe_id := none }).set_mode "add"

/-- RecipeMainWindow.show_recipe_details (main_window.py lines 185-203):
loads a recipe into the form; the image path is kept only when truthy
(not None and not empty), else reset to None. -/
def show_recipe_details (v : ViewState) (r : Recipe) : ViewState :=
  { v with current_recipe_id := some r.id,
           title_input := r.title,
           ingredients_input := r.ingredients,
           instructions_input := r.instructions,
           selected_image_path :=
             if optStrTruthy r.image_path then r.image_path else none }

/-- RecipeMainWindow.update_recipe_list (main_window.py lines 165-174):
repopulate the list widget with (title, id) entries. -/
def update_recipe_list (v : ViewState) (recipes : List Recipe) : ViewState :=
  { v with recipe_list := recipes.map (fun r => (r.title, r.id)) }

end ViewState

namespace RecipeController

/-- RecipeController.refresh_recipe_list (recipe_controller.py lines
188-191): push all recipes from the model into the view. -/
def refresh_recipe_list (v : ViewState) (db : RecipeDatabase) : ViewState :=
  v.update_recipe_list (RecipeModel.get_all_recipes db)

/-- RecipeController.add_recipe (recipe_controller.py lines 43-70): when
not in add mode, clear the form and switch to add mode without touching
the store; in add mode, a blank (stripped-empty) title is ignored;
otherwise the stripped text is added, the list refreshed and the form
cleared. -/
def add_recipe (v : ViewState) (db : RecipeDatabase) :
    ViewState × RecipeDatabase :=
  if v.mode ≠ "add" then
    ((v.clear_inputs).set_mode "add", db)
  else
    let (title, ingredients, instructions, image_path) := v.get_input_data
    if pyStrip title = "" then (v, db)
    else
      let db' := RecipeModel.add_recipe db (pyStrip title) (pyStrip ingredients)
        (pyStrip instructions) image_path
      ((refresh_recipe_list v db').clear_inputs, db')

/-- RecipeController.cancel_edit (recipe_controller.py lines 127-141):
`if recipe_id:` — a truthy current id reloads that recipe (when found),
a falsy one (None or 0) clears the form; both end in set_mode("add"). -/
def cancel_edit (v : ViewState) (db : RecipeDatabase) :
    ViewState × RecipeDatabase :=
  if optNatTruthy v.current_recipe_id then
    match v.current_recipe_id with
    | some rid =>
      (match RecipeModel.get_recipe_by_id db rid with
       | some r => ((v.show_recipe_details r).set_mode "add", db)
       | none => (v.set_mode "add", db))
    | none => ((v.clear_inputs).set_mode "add", db)
  else
    ((v.clear_inputs).set_mode "add", db)

end RecipeController

/-- Well-formedness of the store, maintained by SQLite itself: the ids of
the rows are pairwise distinct (PRIMARY KEY) and strictly below the
AUTOINCREMENT counter.  A fresh store satisfies it. -/
def StoreWF (db : RecipeDatabase) : Prop :=
  (∀ r ∈ db.rows, r.id < db.next_id) ∧ (db.rows.map Row.id).Nodup

/-- A sequence of Repository add calls, each request carrying
(title, ingredients, instructions, image_path). -/
def addSeq (db : RecipeDatabase) :
    List (String × String × String × Option String) → RecipeDatabase
  | [] => db
  | (t, i, s, p) :: rest => addSeq (RecipeModel.add_recipe db t i s p) rest

/-- Modelled from the spec: the direct keyed store lookup that the spec
permits as an optimization of the Repository's linear scan ("may optimize
to a direct keyed store lookup without changing observable behavior"). -/
def get_by_id_keyed (db : RecipeDatabase) (recipe_id : Nat) : Option Recipe :=
  (db.rows.find? (fun r => r.id = recipe_id)).map rowToRecipe

/-- Sample store with one persisted recipe, for concrete witnesses. -/
def sampleDb : RecipeDatabase :=
  { rows := [⟨1, "Soup", "Water", "Boil", none⟩], next_id := 2 }

/-- Sample store with two persisted recipes, for concrete witnesses. -/
def sampleDb2 : RecipeDatabase :=
  { rows := [⟨1, "Soup", "Water", "Boil", none⟩,
             ⟨2, "Stew", "Meat", "Simmer", none⟩], next_id := 3 }

/-- The second row of sampleDb2. -/
def sampleRow2 : Row := ⟨2, "Stew", "Meat", "Simmer", none⟩

/-- A view in add mode whose form holds whitespace-padded text. -/
def viewTyped : ViewState :=
  { title_input := " a ", ingredients_input := " i ",
    instructions_input := " s ", selected_image_path := none,
    current_recipe_id := none, mode := "add", recipe_list := [] }

/-- A view in edit mode with recipe 1 loaded and unsaved edits. -/
def viewEditing : ViewState :=
  { title_input := "Soup (edited)", ingredients_input := "Water, Salt",
    instructions_input := "Boil longer", selected_image_path := none,
    current_recipe_id := some 1, mode := "edit", recipe_list := [("Soup", 1)] }

/-- A view whose current recipe id is the falsy value 0. -/
def viewZeroId : ViewState :=
  { title_input := "Ghost", ingredients_input := "", instructions_input := "",
    selected_image_path := none, current_recipe_id := some 0,
    mode := "edit", recipe_list := [] }

/-! ## Helper lemmas -/

/-- A character that fails the predicate is never dropped by dropWhile. -/
theorem mem_dropWhile_of_not (p : Char → Bool) (l : List Char) (c : Char)
    (hc : c ∈ l) (hp : p c = false) : c ∈ l.dropWhile p := by
  induction l with
  | nil => cases hc
  | cons a t ih =>
    rw [List.dropWhile_cons]
    by_cases h : p a = true
    · simp only [h, if_true]
      rcases List.mem_cons.mp hc with rfl | hmem
      · rw [hp] at h; cases h
      · exact ih hmem
    · simp only [h, if_false]
      exact hc

/-- The head surviving dropWhile fails the predicate. -/
theorem dropWhile_head_not (p : Char → Bool) (l : List Char) (a : Char)
    (t : List Char) (h : l.dropWhile p = a :: t) : p a = false := by
  induction l with
  | nil => cases h
  | cons b bs ih =>
    rw [List.dropWhile_cons] at h
    by_cases hb : p b = true
    · rw [if_pos hb] at h; exact ih h
    · rw [if_neg hb] at h
      cases h
      simpa using hb

/-- A non-whitespace character of a string survives stripping. -/
theorem mem_charStrip (c : Char) (l : List Char) (hc : c ∈ l)
    (hw : c.isWhitespace = false) : c ∈ charStrip l := by
  unfold charStrip
  have h1 := mem_dropWhile_of_not Char.isWhitespace l c hc hw
  have h2 : c ∈ (l.dropWhile Char.isWhitespace).reverse := List.mem_reverse.mpr h1
  have h3 := mem_dropWhile_of_not Char.isWhitespace _ c h2 hw
  exact List.mem_reverse.mpr h3

/-- A string is empty exactly when its character list is. -/
theorem string_empty_iff_data (r : String) : r = "" ↔ r.data = [] := by
  constructor
  · intro hr; rw [hr]
  · intro hr; exact String.ext hr

/-- Stripping an already non-blank strip result keeps it non-blank:
pyStrip s ends in a non-whitespace character, which survives a second
strip. -/
theorem pyStrip_idem_ne (s : String) (h : pyStrip s ≠ "") :
    pyStrip (pyStrip s) ≠ "" := by
  intro hcontra
  have h2 : charStrip (pyStrip s).data = [] := (string_empty_iff_data _).mp hcontra
  have h1 : charStrip s.data ≠ [] := fun hnil => h ((string_empty_iff_data _).mpr hnil)
  cases hBeq : ((s.data.dropWhile Char.isWhitespace).reverse.dropWhile Char.isWhitespace) with
  | nil =>
    apply h1
    show ((s.data.dropWhile Char.isWhitespace).reverse.dropWhile Char.isWhitespace).reverse = []
    rw [hBeq]; rfl
  | cons a t =>
    have haw : a.isWhitespace = false := dropWhile_head_not _ _ a t hBeq
    have hamem : a ∈ (pyStrip s).data := by
      show a ∈ charStrip s.data
      unfold charStrip
      rw [hBeq]
      exact List.mem_reverse.mpr (List.mem_cons_self a t)
    have hfin := mem_charStrip a (pyStrip s).data hamem haw
    rw [h2] at hfin
    cases hfin

/-- Inserting preserves store well-formedness: the fresh id is the counter
value, above every existing id. -/
theorem insert_preserves_WF (db : RecipeDatabase) (t i s : String)
    (p : Option String) (h : StoreWF db) :
    StoreWF (db.insert_recipe t i s p).1 := by
  obtain ⟨hlt, hnd⟩ := h
  constructor
  · intro r hr
    unfold RecipeDatabase.insert_recipe at hr
    simp only [List.mem_append, List.mem_singleton] at hr
    rcases hr with hr | rfl
    · exact Nat.lt_succ_of_lt (hlt r hr)
    · exact Nat.lt_succ_self _
  · unfold RecipeDatabase.insert_recipe
    simp only [List.map_append, List.map_cons, List.map_nil]
    rw [List.nodup_append]
    refine ⟨hnd, List.nodup_singleton _, ?_⟩
    intro x hx hx2
    simp only [List.mem_singleton] at hx2
    subst hx2
    simp only [List.mem_map] at hx
    obtain ⟨r, hr, hid⟩ := hx
    exact Nat.lt_irrefl _ (hid ▸ hlt r hr)

/-- Any sequence of Repository adds preserves store well-formedness. -/
theorem addSeq_WF (reqs : List (String × String × String × Option String))
    (db : RecipeDatabase) (h : StoreWF db) : StoreWF (addSeq db reqs) := by
  induction reqs generalizing db with
  | nil => exact h
  | cons r rest ih =>
    obtain ⟨t, i, s, p⟩ := r
    exact ih _ (insert_preserves_WF db t i s p h)

/-- Case analysis on the store returned by the controller's add handler:
either the store is unchanged, or the stripped form content was added and
the stripped title was non-blank. -/
theorem controller_add_db_cases (v : ViewState) (db : RecipeDatabase) :
    (RecipeController.add_recipe v db).2 = db ∨
    (pyStrip v.title_input ≠ "" ∧
     (RecipeController.add_recipe v db).2 =
       RecipeModel.add_recipe db (pyStrip v.title_input)
         (pyStrip v.ingredients_input) (pyStrip v.instructions_input)
         v.selected_image_path) := by
  unfold RecipeController.add_recipe
  by_cases hmode : v.mode = "add"
  · by_cases hblank : pyStrip v.title_input = ""
    · left; simp [hmode, ViewState.get_input_data, hblank]
    · right
      refine ⟨hblank, ?_⟩
      simp [hmode, ViewState.get_input_data, hblank]
  · left; simp [hmode]

/-! ## Claims -/

/-- C1 counterexample: the Repository operation RecipeModel.add_recipe,
called directly with an empty or whitespace-only title, does create a row
in the store — the blank-title guard does not live in the Repository. -/
theorem repository_add_blank_title_creates_row :
    (RecipeModel.add_recipe RecipeDatabase.empty "" "w" "b" none).rows.length = 1 ∧
    (RecipeModel.add_recipe RecipeDatabase.empty "   " "w" "b" none).rows.length = 1 ∧
    (RecipeModel.add_recipe RecipeDatabase.empty "   " "w" "b" none).rows =
      [⟨1, "   ", "w", "b", none⟩] := by
  decide

/-- C1 (amended): the blank-title rejection lives in the Controller's add
handler, not in the Repository: in add mode a title that strips to empty
leaves view and store untouched, and consequently every row persisted
through the controller path has a non-empty stripped title. -/
theorem controller_blank_title_rejected (v : ViewState) (db : RecipeDatabase) :
    (v.mode = "add" → pyStrip v.title_input = "" →
      RecipeController.add_recipe v db = (v, db)) ∧
    (∀ r ∈ (RecipeController.add_recipe v db).2.rows,
      r ∈ db.rows ∨ pyStrip r.title ≠ "") := by
  constructor
  · intro hmode hblank
    unfold RecipeController.add_recipe
    simp [hmode, ViewState.get_input_data, hblank]
  · intro r hr
    rcases controller_add_db_cases v db with hcase | ⟨hblank, hcase⟩
    · rw [hcase] at hr
      exact Or.inl hr
    · rw [hcase] at hr
      unfold RecipeModel.add_recipe RecipeDatabase.insert_recipe at hr
      simp only [List.mem_append, List.mem_singleton] at hr
      rcases hr with hr | rfl
      · exact Or.inl hr
      · exact Or.inr (pyStrip_idem_ne _ hblank)

/-- C1 witness: a whitespace-only title in add mode is a no-op, and the
row created from a padded title strips to something non-blank. -/
theorem controller_blank_title_rejected_witness :
    ({ viewTyped with title_input := "   " }.mode = "add" ∧
     pyStrip { viewTyped with title_input := "   " }.title_input = "" ∧
     RecipeController.add_recipe { viewTyped with title_input := "   " }
       RecipeDatabase.empty =
       ({ viewTyped with title_input := "   " }, RecipeDatabase.empty)) ∧
    ((⟨1, "a", "i", "s", none⟩ : Row) ∈
        (RecipeController.add_recipe viewTyped RecipeDatabase.empty).2.rows ∧
     ((⟨1, "a", "i", "s", none⟩ : Row) ∈ RecipeDatabase.empty.rows ∨
      pyStrip (⟨1, "a", "i", "s", none⟩ : Row).title ≠ "")) :=
  ⟨⟨rfl, by decide,
    (controller_blank_title_rejected { viewTyped with title_input := "   " }
      RecipeDatabase.empty).1 rfl (by decide)⟩,
   by decide,
   (controller_blank_title_rejected viewTyped RecipeDatabase.empty).2
     ⟨1, "a", "i", "s", none⟩ (by decide)⟩

/-- C2 counterexample: the Store insert appends a row that receives id 1,
but the call itself returns None rather than the newly assigned id. -/
theorem store_insert_returns_no_id :
    (RecipeDatabase.empty.insert_recipe "Soup" "w" "b" none).2 = none ∧
    (RecipeDatabase.empty.insert_recipe "Soup" "w" "b" none).1.rows.map Row.id
      = [1] ∧
    (RecipeDatabase.empty.insert_recipe "Soup" "w" "b" none).2 ≠ some 1 := by
  decide

/-- C2 (amended): the Store insert appends a row whose id is freshly
assigned and distinct from every existing id, but the operation returns
None, not the id; across any sequence of add calls all assigned ids are
pairwise distinct. -/
theorem store_insert_fresh_distinct_ids (db : RecipeDatabase)
    (t i s : String) (p : Option String)
    (reqs : List (String × String × String × Option String))
    (h : StoreWF db) :
    (db.insert_recipe t i s p).2 = none ∧
    (db.insert_recipe t i s p).1.rows.map Row.id =
      db.rows.map Row.id ++ [db.next_id] ∧
    db.next_id ∉ db.rows.map Row.id ∧
    ((addSeq db reqs).rows.map Row.id).Nodup := by
  refine ⟨rfl, ?_, ?_, (addSeq_WF reqs db h).2⟩
  · simp [RecipeDatabase.insert_recipe]
  · intro hmem
    simp only [List.mem_map] at hmem
    obtain ⟨r, hr, hid⟩ := hmem
    exact Nat.lt_irrefl _ (hid ▸ h.1 r hr)

/-- C2 witness: from a fresh store, two adds assign the distinct ids
1 and 2, and the insert call returns None. -/
theorem store_insert_fresh_distinct_ids_witness :
    StoreWF RecipeDatabase.empty ∧
    (RecipeDatabase.empty.insert_recipe "A" "i" "s" none).2 = none ∧
    (RecipeDatabase.empty.insert_recipe "A" "i" "s" none).1.rows.map Row.id =
      RecipeDatabase.empty.rows.map Row.id ++ [RecipeDatabase.empty.next_id] ∧
    RecipeDatabase.empty.next_id ∉ RecipeDatabase.empty.rows.map Row.id ∧
    ((addSeq RecipeDatabase.empty
        [("A", "i", "s", none), ("B", "i", "s", none)]).rows.map Row.id).Nodup :=
  ⟨⟨by decide, by decide⟩,
   store_insert_fresh_distinct_ids RecipeDatabase.empty "A" "i" "s" none
     [("A", "i", "s", none), ("B", "i", "s", none)] ⟨by decide, by decide⟩⟩

/-- C3 counterexample: a recipe added through the Repository with padded
title " a " reads back with title " a ", not the stripped "a" — the
Repository does not trim before delegating to the Store. -/
theorem repository_add_does_not_trim :
    RecipeModel.get_recipe_by_id
      (RecipeModel.add_recipe RecipeDatabase.empty " a " " i " " s " none) 1 =
      some ⟨1, " a ", " i ", " s ", none⟩ ∧
    pyStrip " a " = "a" ∧
    (" a " : String) ≠ "a" := by
  decide

/-- C3 (amended): a recipe added through the Repository with fields
(t, i, s, p) reads back verbatim — title t, ingredients i, instructions s,
image_path p — because the Repository delegates to the Store with the text
unchanged; the stripping happens earlier, in the Controller's add handler,
which passes the stripped form fields to the Repository. -/
theorem repository_roundtrip_verbatim (db : RecipeDatabase)
    (t i s : String) (p : Option String) (v : ViewState) (h : StoreWF db) :
    RecipeModel.get_recipe_by_id (RecipeModel.add_recipe db t i s p)
      db.next_id = some ⟨db.next_id, t, i, s, p⟩ ∧
    (v.mode = "add" → pyStrip v.title_input ≠ "" →
      (RecipeController.add_recipe v db).2 =
        RecipeModel.add_recipe db (pyStrip v.title_input)
          (pyStrip v.ingredients_input) (pyStrip v.instructions_input)
          v.selected_image_path) := by
  obtain ⟨hlt, -⟩ := h
  constructor
  · unfold RecipeModel.get_recipe_by_id RecipeModel.get_all_recipes
      RecipeModel.add_recipe RecipeDatabase.insert_recipe
      RecipeDatabase.get_all_recipes
    simp only [List.map_append, List.find?_append]
    have hnone : (db.rows.map rowToRecipe).find?
        (fun r => r.id = db.next_id) = none := by
      rw [List.find?_eq_none]
      intro x hx
      simp only [List.mem_map] at hx
      obtain ⟨r, hr, rfl⟩ := hx
      simpa [rowToRecipe] using Nat.ne_of_lt (hlt r hr)
    rw [hnone]
    simp [rowToRecipe]
  · intro hmode hblank
    unfold RecipeController.add_recipe
    simp [hmode, ViewState.get_input_data, hblank]

/-- C3 witness: adding " a ", " i ", " s " through the Repository over a
fresh store reads back verbatim under id 1, and the controller hands the
Repository the stripped form fields. -/
theorem repository_roundtrip_verbatim_witness :
    StoreWF RecipeDatabase.empty ∧
    (RecipeModel.get_recipe_by_id
        (RecipeModel.add_recipe RecipeDatabase.empty " a " " i " " s " none)
        RecipeDatabase.empty.next_id =
      some ⟨RecipeDatabase.empty.next_id, " a ", " i ", " s ", none⟩) ∧
    viewTyped.mode = "add" ∧ pyStrip viewTyped.title_input ≠ "" ∧
    (RecipeController.add_recipe viewTyped RecipeDatabase.empty).2 =
      RecipeModel.add_recipe RecipeDatabase.empty
        (pyStrip viewTyped.title_input) (pyStrip viewTyped.ingredients_input)
        (pyStrip viewTyped.instructions_input) viewTyped.selected_image_path :=
  ⟨⟨by decide, by decide⟩,
   (repository_roundtrip_verbatim RecipeDatabase.empty " a " " i " " s " none
     viewTyped ⟨by decide, by decide⟩).1,
   rfl, by decide,
   (repository_roundtrip_verbatim RecipeDatabase.empty " a " " i " " s " none
     viewTyped ⟨by decide, by decide⟩).2 rfl (by decide)⟩

/-- C4: updating an id that matches no existing row is a quiet no-op —
no row is created, every existing row is unchanged and the store state is
exactly what it was (the embedding is total, so no error is raised). -/
theorem update_missing_id_is_noop (db : RecipeDatabase) (rid : Nat)
    (t i s : String) (p : Option String)
    (h : ∀ r ∈ db.rows, r.id ≠ rid) :
    db.update_recipe rid t i s p = db := by
  unfold RecipeDatabase.update_recipe
  have hrows : db.rows.map (fun r =>
      if r.id = rid then
        ({ id := r.id, title := t, ingredients := i,
           instructions := s, image_path := p } : Row)
      else r) = db.rows := by
    rw [show db.rows = db.rows.map id by simp]
    rw [List.map_map]
    apply List.map_congr_left
    intro a ha
    simp [h a (by simpa using ha)]
  rw [hrows]

/-- C4 witness: updating the absent id 999 on a one-recipe store leaves
the store identical. -/
theorem update_missing_id_is_noop_witness :
    (∀ r ∈ sampleDb.rows, r.id ≠ 999) ∧
    sampleDb.update_recipe 999 "T" "I" "S" none = sampleDb :=
  ⟨by decide, update_missing_id_is_noop sampleDb 999 "T" "I" "S" none (by decide)⟩

/-- C5: delete is final — after delete(id), get_recipe_by_id(id) is
absent, and deleting the same id again changes nothing (a no-op on the
resulting state; the embedding is total, so no error is raised). -/
theorem delete_is_final_and_idempotent (db : RecipeDatabase) (rid : Nat) :
    RecipeModel.get_recipe_by_id (RecipeModel.delete_recipe db rid) rid = none ∧
    RecipeModel.delete_recipe (RecipeModel.delete_recipe db rid) rid =
      RecipeModel.delete_recipe db rid := by
  constructor
  · unfold RecipeModel.get_recipe_by_id RecipeModel.get_all_recipes
      RecipeModel.delete_recipe RecipeDatabase.delete_recipe
      RecipeDatabase.get_all_recipes
    rw [List.find?_eq_none]
    intro x hx
    simp only [List.mem_map, List.mem_filter] at hx
    obtain ⟨r, ⟨-, hr2⟩, rfl⟩ := hx
    simpa [rowToRecipe] using hr2
  · unfold RecipeModel.delete_recipe RecipeDatabase.delete_recipe
    simp [List.filter_filter]

/-- C6: the Store update is idempotent — writing the same Recipe twice
leaves the stored rows identical to writing it once. -/
theorem update_twice_eq_update_once (db : RecipeDatabase) (rec : Recipe) :
    RecipeModel.update_recipe (RecipeModel.update_recipe db rec) rec =
      RecipeModel.update_recipe db rec := by
  unfold RecipeModel.update_recipe RecipeDatabase.update_recipe
  simp only [List.map_map]
  congr 1
  apply List.map_congr_left
  intro a _
  by_cases h : a.id = rec.id <;> simp [h]

/-- C7: an add intent arriving while the mode is not add clears the form,
discards the current recipe id, switches to add mode and creates no
record; a second consecutive add click then finds the cleared (blank)
form and also commits nothing, so the form content is committed at most
once. -/
theorem add_intent_in_non_add_mode_arms_only (v : ViewState)
    (db : RecipeDatabase) (h : v.mode ≠ "add") :
    (RecipeController.add_recipe v db).2 = db ∧
    (RecipeController.add_recipe v db).1.title_input = "" ∧
    (RecipeController.add_recipe v db).1.ingredients_input = "" ∧
    (RecipeController.add_recipe v db).1.instructions_input = "" ∧
    (RecipeController.add_recipe v db).1.selected_image_path = none ∧
    (RecipeController.add_recipe v db).1.current_recipe_id = none ∧
    (RecipeController.add_recipe v db).1.mode = "add" ∧
    (RecipeController.add_recipe
        (RecipeController.add_recipe v db).1
        (RecipeController.add_recipe v db).2).2 = db := by
  have h1 : RecipeController.add_recipe v db =
      ((v.clear_inputs).set_mode "add", db) := by
    unfold RecipeController.add_recipe
    simp [h]
  rw [h1]
  refine ⟨rfl, rfl, rfl, rfl, rfl, rfl, rfl, ?_⟩
  unfold RecipeController.add_recipe
  simp [ViewState.clear_inputs, ViewState.set_mode, ViewState.get_input_data]
  rw [if_pos (by decide : pyStrip "" = "")]

/-- C7 witness: from edit mode, the first add click leaves the store
unchanged, clears the form and enters add mode, and a second click still
creates no record. -/
theorem add_intent_in_non_add_mode_arms_only_witness :
    viewEditing.mode ≠ "add" ∧
    (RecipeController.add_recipe viewEditing sampleDb).2 = sampleDb ∧
    (RecipeController.add_recipe viewEditing sampleDb).1.current_recipe_id
      = none ∧
    (RecipeController.add_recipe viewEditing sampleDb).1.mode = "add" ∧
    (RecipeController.add_recipe
        (RecipeController.add_recipe viewEditing sampleDb).1
        (RecipeController.add_recipe viewEditing sampleDb).2).2 = sampleDb :=
  ⟨by decide,
   (add_intent_in_non_add_mode_arms_only viewEditing sampleDb (by decide)).1,
   (add_intent_in_non_add_mode_arms_only viewEditing sampleDb (by decide)).2.2.2.2.2.1,
   (add_intent_in_non_add_mode_arms_only viewEditing sampleDb (by decide)).2.2.2.2.2.2.1,
   (add_intent_in_non_add_mode_arms_only viewEditing sampleDb (by decide)).2.2.2.2.2.2.2⟩

/-- C8: cancel with a truthy current recipe id reloads that recipe's
persisted details into the form and returns to add mode; a current id of
0 is falsy, so cancel clears the form instead of reloading recipe 0. -/
theorem cancel_edit_reloads_or_clears (v : ViewState) (db : RecipeDatabase) :
    (∀ (n : Nat) (r : Recipe), v.current_recipe_id = some n → n ≠ 0 →
      RecipeModel.get_recipe_by_id db n = some r →
      RecipeController.cancel_edit v db =
        ((v.show_recipe_details r).set_mode "add", db)) ∧
    (v.current_recipe_id = some 0 →
      RecipeController.cancel_edit v db =
        ((v.clear_inputs).set_mode "add", db)) := by
  constructor
  · intro n r hcur hn hget
    unfold RecipeController.cancel_edit
    rw [hcur]
    simp [optNatTruthy, hn, hget]
  · intro hcur
    unfold RecipeController.cancel_edit
    rw [hcur]
    simp [optNatTruthy]

/-- C8 witness: cancelling with recipe 1 loaded restores the persisted
"Soup" into the form; cancelling with current id 0 clears the form. -/
theorem cancel_edit_reloads_or_clears_witness :
    (viewEditing.current_recipe_id = some 1 ∧ (1 : Nat) ≠ 0 ∧
     RecipeModel.get_recipe_by_id sampleDb 1 =
       some ⟨1, "Soup", "Water", "Boil", none⟩ ∧
     RecipeController.cancel_edit viewEditing sampleDb =
       ((viewEditing.show_recipe_details
           ⟨1, "Soup", "Water", "Boil", none⟩).set_mode "add", sampleDb)) ∧
    (viewZeroId.current_recipe_id = some 0 ∧
     RecipeController.cancel_edit viewZeroId sampleDb =
       ((viewZeroId.clear_inputs).set_mode "add", sampleDb)) :=
  ⟨⟨rfl, by decide, by decide,
    (cancel_edit_reloads_or_clears viewEditing sampleDb).1 1
      ⟨1, "Soup", "Water", "Boil", none⟩ rfl (by decide) (by decide)⟩,
   rfl,
   (cancel_edit_reloads_or_clears viewZeroId sampleDb).2 rfl⟩

/-- C9: the Repository's get_recipe_by_id, a linear scan over
get_all_recipes, returns for every store state and every id exactly what
a direct keyed lookup in the store returns — the permitted optimization
changes no observable behavior. -/
theorem get_by_id_scan_eq_keyed_lookup (db : RecipeDatabase) (rid : Nat) :
    RecipeModel.get_recipe_by_id db rid = get_by_id_keyed db rid := by
  unfold RecipeModel.get_recipe_by_id get_by_id_keyed
    RecipeModel.get_all_recipes RecipeDatabase.get_all_recipes
  rw [List.find?_map]
  rfl

/-- C10: update and delete touch only the row whose id matches — under
update, every row with a different id keeps all its fields and its
position; under delete, the rows with a different id survive with all
fields intact and in unchanged relative storage order (a sublist of the
original order containing every non-matching row). -/
theorem update_delete_touch_only_matching_row (db : RecipeDatabase)
    (rid : Nat) (t i s : String) (p : Option String) (d : Nat) :
    ((db.update_recipe rid t i s p).rows.length = db.rows.length ∧
     ∀ (j : Nat) (r0 : Row), db.rows[j]? = some r0 → r0.id ≠ rid →
       (db.update_recipe rid t i s p).rows[j]? = some r0) ∧
    ((db.delete_recipe d).rows.Sublist db.rows ∧
     ∀ r ∈ db.rows, r.id ≠ d → r ∈ (db.delete_recipe d).rows) := by
  refine ⟨⟨?_, ?_⟩, ?_, ?_⟩
  · simp [RecipeDatabase.update_recipe]
  · intro j r0 hj hne
    unfold RecipeDatabase.update_recipe
    simp only [List.getElem?_map, hj, Option.map_some]
    simp [hne]
  · exact List.filter_sublist _
  · intro r hr hne
    unfold RecipeDatabase.delete_recipe
    simp only [List.mem_filter]
    exact ⟨hr, by simpa using hne⟩

/-- C10 witness: on a two-recipe store, updating recipe 1 leaves row 2 at
position 1 with all fields intact, and deleting the absent id 3 keeps row
2 present. -/
theorem update_delete_touch_only_matching_row_witness :
    (sampleDb2.rows[1]? = some sampleRow2 ∧ sampleRow2.id ≠ 1 ∧
     (sampleDb2.update_recipe 1 "T" "I" "S" none).rows[1]? = some sampleRow2) ∧
    (sampleRow2 ∈ sampleDb2.rows ∧ sampleRow2.id ≠ 3 ∧
     sampleRow2 ∈ (sampleDb2.delete_recipe 3).rows) :=
  ⟨⟨by decide, by decide,
    (update_delete_touch_only_matching_row sampleDb2 1 "T" "I" "S" none 3).1.2
      1 sampleRow2 (by decide) (by decide)⟩,
   by decide, by decide,
   (update_delete_touch_only_matching_row sampleDb2 1 "T" "I" "S" none 3).2.2
     sampleRow2 (by decide) (by decide)⟩
